import Mathlib

/-!
Shallow embedding of the client logic of the fund-flow analysis dashboards
(`src/static/js/multi-dashboard.js`): the multi-person dashboard segment
(`fetchJSON`, `renderInteraction`, `renderStolen`, `renderHidden`,
`initMultiDashboard`'s hidden-reload handler, `loadAllData`), the
single-person dashboard segment (`renderTrend`, `renderStats`,
`renderKeywords`, `loadAllData`), and the `UploadManager` class
(`addFiles`, `renderRow`'s select options, `updateConfig`, `remove`,
`uploadAll`).

JavaScript string primitives used by the code (`toLowerCase`, `endsWith`,
`trim`, `parseInt(s, 10)`) are modelled explicitly over character lists.
JSON payloads are modelled by the concrete record shapes the code reads;
a field the code guards with a falsy check (`!data`, `!data.data`,
`x.amount || 0`) is an `Option`. Amounts are rationals.
-/

namespace FundDash

/-! ### JavaScript string primitives -/

/-- Whitespace characters recognised when modelling JS string trimming and
`parseInt` prefix skipping. -/
def isJsSpace (c : Char) : Bool :=
  c == ' ' || c == '\t' || c == '\n' || c == '\r' || c == '\x0b' || c == '\x0c'

/-- Model of `String.prototype.trim` (ASCII whitespace range used here). -/
def jsTrim (s : String) : String :=
  ⟨((s.data.dropWhile isJsSpace).reverse.dropWhile isJsSpace).reverse⟩

/-- Model of `String.prototype.toLowerCase` (ASCII case folding; the only
use site tests for the ASCII suffix ".txt"). -/
def jsToLower (s : String) : String :=
  ⟨s.data.map Char.toLower⟩

/-- Model of `String.prototype.endsWith`. -/
def jsEndsWith (s suf : String) : Bool :=
  suf.data.isSuffixOf s.data

/-- Numeric value of a decimal digit character. -/
def digitVal (c : Char) : Nat :=
  c.toNat - '0'.toNat

/-- Decimal value of a digit run. -/
def digitsToNat (cs : List Char) : Nat :=
  cs.foldl (fun a c => a * 10 + digitVal c) 0

/-- Model of `parseInt(s, 10)`: skip leading whitespace, read an optional
sign, then the longest run of decimal digits; `none` models `NaN` (no
digits found). -/
def jsParseInt10 (s : String) : Option Int :=
  let cs := s.data.dropWhile isJsSpace
  let signed : Int × List Char :=
    match cs with
    | '-' :: r => (-1, r)
    | '+' :: r => (1, r)
    | r => (1, r)
  let ds := signed.2.takeWhile Char.isDigit
  if ds = [] then none else some (signed.1 * (digitsToNat ds : Int))

/-! ### `fetchJSON` -/

/-- The parts of a `fetch` response the code reads: `ok`, `statusText`, and
the parsed JSON body produced by `r.json()`. -/
structure Response (α : Type) where
  ok : Bool
  statusText : String
  jsonBody : α

/-- `fetchJSON(url)`: `if (!r.ok) throw new Error(r.statusText); return r.json();`
A thrown error is modelled as `Except.error` carrying the status text. -/
def fetchJSON {α : Type} (r : Response α) : Except String α :=
  if r.ok then .ok r.jsonBody else .error r.statusText

/-! ### Multi-person render functions -/

/-- One element of the interaction graph's `links` array; the code reads
only `value`. -/
structure Link where
  value : ℚ
deriving DecidableEq

/-- The interaction payload as read by `renderInteraction`: `data.nodes`
and `data.links`; each is `Option` because the code guards `!data.nodes`
and would throw on a missing `links`. Node identity is irrelevant to the
code (only `length` is read), so nodes are strings. -/
structure InteractionData where
  nodes : Option (List String)
  links : Option (List Link)

/-- What `renderInteraction` writes into the panel: either the empty-state
placeholder or the summary (node count, edge count, large-edge count). -/
inductive InteractionView where
  | emptyState
  | summary (nodeCount edgeCount bigCount : Nat)
deriving DecidableEq

/-- The hard-coded large-edge threshold in `renderInteraction`
(`l.value > 10000`). -/
def bigEdgeThreshold : ℚ := 10000

/-- `renderInteraction(data)`: empty placeholder when `!data || !data.nodes
|| data.nodes.length === 0`; otherwise a summary showing
`data.nodes.length`, `data.links.length` and the count of links with
`value > 10000`. Reading `filter` off a missing `links` field throws,
modelled as `Except.error`. -/
def renderInteraction : Option InteractionData → Except Unit InteractionView
  | none => .ok .emptyState
  | some d =>
    match d.nodes with
    | none => .ok .emptyState
    | some ns =>
      if ns.length = 0 then .ok .emptyState
      else
        match d.links with
        | none => .error ()
        | some ls =>
          .ok (.summary ns.length ls.length
            ((ls.filter (fun l => bigEdgeThreshold < l.value)).length))

/-- A `{ data: [...] }` analytics payload; `data` is `Option` because the
code guards `!data.data`. -/
structure Payload (α : Type) where
  data : Option (List α)

/-- One stolen-goods tracing row as read by `renderStolen`. -/
structure StolenRow where
  source : String
  target : String
  amount : Option ℚ
deriving DecidableEq

/-- What `renderStolen` writes: placeholder or a table of
(source, target, amount) rows. -/
inductive StolenView where
  | emptyState
  | table (rows : List (String × String × ℚ))
deriving DecidableEq

/-- `renderStolen(data)`: placeholder on a falsy/empty payload, else a
table built from `data.data.slice(0, 50)` with `x.amount || 0`. -/
def renderStolen : Option (Payload StolenRow) → StolenView
  | none => .emptyState
  | some p =>
    match p.data with
    | none => .emptyState
    | some l =>
      if l.length = 0 then .emptyState
      else .table ((l.take 50).map (fun x => (x.source, x.target, x.amount.getD 0)))

/-- One hidden-accomplice row as read by `renderHidden`. -/
structure HiddenRow where
  counterparty_name : String
  freq : Nat
  total_amount : Option ℚ
deriving DecidableEq

/-- What `renderHidden` writes: placeholder or ranked items
(1-based rank, name, frequency, amount). -/
inductive HiddenView where
  | emptyState
  | items (rows : List (Nat × String × Nat × ℚ))
deriving DecidableEq

/-- `renderHidden(data)`: placeholder on a falsy/empty payload, else every
row of `data.data`, rendered with its 1-based index and
`x.total_amount || 0`. -/
def renderHidden : Option (Payload HiddenRow) → HiddenView
  | none => .emptyState
  | some p =>
    match p.data with
    | none => .emptyState
    | some l =>
      if l.length = 0 then .emptyState
      else .items (l.enum.map (fun q => (q.1 + 1, q.2.counterparty_name, q.2.freq, q.2.total_amount.getD 0)))

/-! ### Single-person render functions -/

/-- One trend bucket as read by `renderTrend`. -/
structure TrendRow where
  total_in : Option ℚ
  total_out : Option ℚ
deriving DecidableEq

/-- What `renderTrend` writes: placeholder or the two reduced sums. -/
inductive TrendView where
  | emptyState
  | summary (inSum outSum : ℚ)
deriving DecidableEq

/-- `renderTrend(data)`: placeholder on a falsy/empty payload, else the
sums `reduce((s, x) => s + (x.total_in || 0), 0)` and the analogous
outbound sum. -/
def renderTrend : Option (Payload TrendRow) → TrendView
  | none => .emptyState
  | some p =>
    match p.data with
    | none => .emptyState
    | some l =>
      if l.length = 0 then .emptyState
      else .summary (l.foldl (fun s x => s + x.total_in.getD 0) 0)
        (l.foldl (fun s x => s + x.total_out.getD 0) 0)

/-- One counterparty statistics row as read by `renderStats`. -/
structure StatsRow where
  counterparty_name : String
  net_amount : Option ℚ
deriving DecidableEq

/-- What `renderStats` writes: placeholder or a table of
(counterparty, displayed absolute net amount) rows. -/
inductive StatsView where
  | emptyState
  | table (rows : List (String × ℚ))
deriving DecidableEq

/-- `renderStats(data)`: placeholder on a falsy/empty payload, else a table
built from `data.data.slice(0, 50)` showing `Math.abs(x.net_amount || 0)`. -/
def renderStats : Option (Payload StatsRow) → StatsView
  | none => .emptyState
  | some p =>
    match p.data with
    | none => .emptyState
    | some l =>
      if l.length = 0 then .emptyState
      else .table ((l.take 50).map (fun x => (x.counterparty_name, |x.net_amount.getD 0|)))

/-- One keyword row as read by `renderKeywords`. -/
structure KeywordRow where
  counterparty_name : String
  in_amount : Option ℚ
  out_amount : Option ℚ
deriving DecidableEq

/-- What `renderKeywords` writes: placeholder or (counterparty,
inbound+outbound) items. -/
inductive KeywordView where
  | emptyState
  | items (rows : List (String × ℚ))
deriving DecidableEq

/-- `renderKeywords(data)`: placeholder on a falsy/empty payload, else one
item per row showing `(x.in_amount || 0) + (x.out_amount || 0)`. -/
def renderKeywords : Option (Payload KeywordRow) → KeywordView
  | none => .emptyState
  | some p =>
    match p.data with
    | none => .emptyState
    | some l =>
      if l.length = 0 then .emptyState
      else .items (l.map (fun x => (x.counterparty_name, x.in_amount.getD 0 + x.out_amount.getD 0)))

/-! ### Analytics requests issued by the dashboards -/

/-- A request to one of the multi-person analytics endpoints, with its
query parameters; `minutes = none` models the string `NaN` appearing in
the URL when `parseInt` fails. -/
inductive MultiRequest where
  | interaction (case_id : String)
  | stolen_known (case_id : String)
  | hidden (case_id : String) (minutes : Option Int)
deriving DecidableEq

/-- The `case_id` query parameter of a multi-person request. -/
def MultiRequest.case_id : MultiRequest → String
  | .interaction c => c
  | .stolen_known c => c
  | .hidden c _ => c

/-- The minutes value both hidden-accomplice call sites compute:
`parseInt(hiddenMinutesInput.value || '30', 10)`. -/
def parsedMinutes (v : String) : Option Int :=
  jsParseInt10 (if v = "" then "30" else v)

/-- Multi-dashboard `loadAllData(caseId)`: `if (!caseId) return;`, then the
three concurrent requests, the hidden one carrying the parsed minutes. -/
def loadAllDataMulti (caseId hiddenMinutesValue : String) : List MultiRequest :=
  if caseId = "" then []
  else
    [.interaction caseId, .stolen_known caseId,
      .hidden caseId (parsedMinutes hiddenMinutesValue)]

/-- The `hiddenReloadBtn` click handler in `initMultiDashboard`: issues the
hidden-accomplice request unconditionally (no case-id guard). -/
def hiddenReloadRequests (caseId hiddenMinutesValue : String) : List MultiRequest :=
  [.hidden caseId (parsedMinutes hiddenMinutesValue)]

/-- A request to one of the single-person analytics endpoints. -/
inductive SingleRequest where
  | trend (case_id person : String)
  | stats (case_id person filterMode : String)
  | keywords (case_id : String)
deriving DecidableEq

/-- The `case_id` query parameter of a single-person request. -/
def SingleRequest.case_id : SingleRequest → String
  | .trend c _ => c
  | .stats c _ _ => c
  | .keywords c => c

/-- Single-dashboard `loadAllData(caseId)`: `if (!caseId) return;`, then the
three concurrent requests, person trimmed from the input field. -/
def loadAllDataSingle (caseId personRaw filterMode : String) : List SingleRequest :=
  if caseId = "" then []
  else
    [.trend caseId (jsTrim personRaw), .stats caseId (jsTrim personRaw) filterMode,
      .keywords caseId]

/-- The `statsFilter` change handler in `initSingleDashboard`: issues the
stats request unconditionally (no case-id guard). -/
def statsFilterRequests (caseId personRaw filterMode : String) : List SingleRequest :=
  [.stats caseId (jsTrim personRaw) filterMode]

/-! ### `UploadManager` -/

/-- The parts of a staged `File` object the code reads. -/
structure FileInfo where
  name : String
  size : Nat
deriving DecidableEq

/-- A per-file configuration object `{ file, type, unit }` as built by
`UploadManager.addFiles` and edited by `updateConfig`. -/
structure FileConfig where
  file : FileInfo
  type : String
  unit : String
deriving DecidableEq

/-- `this.filesMap`, a JS `Map` keyed by file name, modelled as an
insertion-ordered association list with unique keys. -/
abbrev StagedFiles := List (String × FileConfig)

/-- The person-role values of the `type` select rendered by
`UploadManager.renderRow` (screening-subject, fence-receiver,
theft-person). -/
def typeOptions : List String :=
  ["排查人员", "收脏人员", "盗窃人员"]

/-- The amount-unit values of the `unit` select rendered by
`UploadManager.renderRow` (yuan ×1, fen ÷100, jiao ÷10). -/
def unitOptions : List String :=
  ["yuan", "fen", "jiao"]

/-- `addFiles`: `let defaultType = '排查人员';`. -/
def defaultType : String := "排查人员"

/-- `addFiles`: `let defaultUnit = 'yuan'; if
(file.name.toLowerCase().endsWith('.txt')) defaultUnit = 'fen';`. -/
def defaultUnit (name : String) : String :=
  if jsEndsWith (jsToLower name) ".txt" then "fen" else "yuan"

/-- Whether the map holds an entry for key `k` (`Map.prototype.has`). -/
def hasKey (m : StagedFiles) (k : String) : Bool :=
  m.any (fun p => decide (p.1 = k))

/-- Replace the value stored at key `k`, keeping its position. -/
def replaceKey : StagedFiles → String → FileConfig → StagedFiles
  | [], _, _ => []
  | p :: rest, k, v => (if p.1 = k then (k, v) else p) :: replaceKey rest k v

/-- `Map.prototype.set`: overwrite in place when the key exists, else
append in insertion order. -/
def mapSet (m : StagedFiles) (k : String) (v : FileConfig) : StagedFiles :=
  if hasKey m k then replaceKey m k v else m ++ [(k, v)]

/-- `Map.prototype.get`, restricted to the stored configuration. -/
def lookupStaged : StagedFiles → String → Option FileConfig
  | [], _ => none
  | p :: rest, k => if p.1 = k then some p.2 else lookupStaged rest k

/-- `UploadManager.addFiles(fileList)`: for each file, stage
`{ file, type: defaultType, unit: defaultUnit }` under its name. -/
def addFiles (m : StagedFiles) (fs : List FileInfo) : StagedFiles :=
  fs.foldl (fun acc f => mapSet acc f.name ⟨f, defaultType, defaultUnit f.name⟩) m

/-- `config[key] = val` for the two keys the selects drive; any other key
leaves the modelled configuration unchanged. -/
def applyField (cfg : FileConfig) (key val : String) : FileConfig :=
  if key = "type" then { cfg with type := val }
  else if key = "unit" then { cfg with unit := val }
  else cfg

/-- `UploadManager.updateConfig(filename, key, val)`: mutate the stored
configuration when the file is staged, else do nothing. -/
def updateConfig (m : StagedFiles) (filename key val : String) : StagedFiles :=
  match lookupStaged m filename with
  | none => m
  | some cfg => mapSet m filename (applyField cfg key val)

/-- `UploadManager.remove(filename)`: `this.filesMap.delete(filename)`. -/
def removeFile (m : StagedFiles) (filename : String) : StagedFiles :=
  m.filter (fun p => decide (¬ p.1 = filename))

/-- The staged-file mutations reachable from the upload page: adding files
(file input or drop), changing one of the two selects, removing a row. -/
inductive UIEvent where
  | add (fs : List FileInfo)
  | setType (filename v : String)
  | setUnit (filename v : String)
  | remove (filename : String)

/-- Effect of one UI event on the staged-file map, via the handlers wired
in `renderRow` and `init`. -/
def applyEvent (m : StagedFiles) : UIEvent → StagedFiles
  | .add fs => addFiles m fs
  | .setType f v => updateConfig m f "type" v
  | .setUnit f v => updateConfig m f "unit" v
  | .remove f => removeFile m f

/-- The select elements rendered by `renderRow` only ever emit one of
their `<option>` values, so a UI-originated event carries one of them. -/
def fromSelectUI : UIEvent → Prop
  | .setType _ v => v ∈ typeOptions
  | .setUnit _ v => v ∈ unitOptions
  | _ => True

/-- The staged-file map after a sequence of UI events, starting from the
empty map the constructor builds. -/
def runUI (evs : List UIEvent) : StagedFiles :=
  evs.foldl applyEvent []

/-- The `file_configs` object `uploadAll` serialises:
`configs[name] = { type: cfg.type, unit: cfg.unit }`. -/
def fileConfigs (m : StagedFiles) : List (String × String × String) :=
  m.map (fun p => (p.1, p.2.type, p.2.unit))

/-- Outcome of `UploadManager.uploadAll`: either an `alert` with no network
request, or the multipart POST to `/api/upload` with its fields. -/
inductive UploadAction where
  | alerted (msg : String)
  | requestSent (case_name case_id : String) (files : List FileInfo)
      (file_configs : List (String × String × String))
deriving DecidableEq

/-- Whether the outcome performed the POST to `/api/upload`. -/
def UploadAction.sendsRequest : UploadAction → Bool
  | .alerted _ => false
  | .requestSent .. => true

/-- `UploadManager.uploadAll()`: trim the case name and id, alert and
return when either is empty or no file is staged, otherwise POST the
files plus `file_configs`; the staged map itself is never mutated. -/
def uploadAll (caseNameRaw caseIdRaw : String) (m : StagedFiles) :
    UploadAction × StagedFiles :=
  let caseName := jsTrim caseNameRaw
  let caseId := jsTrim caseIdRaw
  if caseName = "" ∨ caseId = "" then (.alerted "请填写案件名称和编号", m)
  else if m.length = 0 then (.alerted "请至少添加一个文件", m)
  else (.requestSent caseName caseId (m.map (fun p => p.2.file)) (fileConfigs m), m)

/-! ### Ingestion-side behaviour modelled from the spec

The ingestion/normalization backend is not among the repository sources
(only the upload client is), so the two facts claims need from it are
modelled from the spec. -/

/-- Modelled from the spec: the closed person-role enumeration of §3
(theft-person / fence-receiver / screening-subject), in the canonical
string form the upload client declares. -/
def canonicalRoles : List String :=
  ["盗窃人员", "收脏人员", "排查人员"]

/-- Result of ingesting one upload batch, as far as identity validation is
concerned. -/
inductive IngestResult where
  | invalidIdentity
  | committed (rows : Nat)
deriving DecidableEq

/-- Modelled from the spec: §4.2 identity validation — a declared
person-role outside the closed enumeration fails the batch with
`InvalidIdentity` and commits zero rows (all-or-nothing per batch). -/
def ingestBatch (role : String) (rowCount : Nat) : IngestResult :=
  if role ∈ canonicalRoles then .committed rowCount else .invalidIdentity

/-- Rows committed by an ingestion outcome. -/
def committedRows : IngestResult → Nat
  | .invalidIdentity => 0
  | .committed n => n

/-- Modelled from the spec: §4.2 unit reconciliation — the declared-unit
factor applied to raw amounts (full unit ×1, tenth ×0.1, hundredth ×0.01),
consistent with the upload form's unit labels (元, 角 ÷10, 分 ÷100). -/
def unitFactor : String → Option ℚ
  | "yuan" => some 1
  | "jiao" => some (1 / 10)
  | "fen" => some (1 / 100)
  | _ => none

/-! ### Zero-row response shapes -/

/-- A zero-row analytics response as the render functions can receive it:
a null payload, a payload with no `data` field, or an empty `data` list. -/
def zeroRowPayload {α : Type} : Option (Payload α) → Prop
  | none => True
  | some p => p.data = none ∨ p.data = some []

/-- A zero-row interaction response: null payload, no `nodes` field, or an
empty `nodes` list. -/
def zeroRowInteraction : Option InteractionData → Prop
  | none => True
  | some d => d.nodes = none ∨ d.nodes = some []

/-! ### Helper lemmas on the staged-files map -/

/-- Both select values of a staged configuration are drawn from the
`renderRow` options. -/
def goodCfg (cfg : FileConfig) : Prop :=
  cfg.type ∈ typeOptions ∧ cfg.unit ∈ unitOptions

theorem mem_replaceKey {m : StagedFiles} {k : String} {v : FileConfig}
    {p : String × FileConfig} (hp : p ∈ replaceKey m k v) : p = (k, v) ∨ p ∈ m := by
  induction m with
  | nil => simp [replaceKey] at hp
  | cons q rest ih =>
    simp only [replaceKey, List.mem_cons] at hp
    rcases hp with h | h
    · by_cases hq : q.1 = k
      · simp only [if_pos hq] at h
        exact Or.inl h
      · simp only [if_neg hq] at h
        exact Or.inr (by simp [h])
    · rcases ih h with h' | h'
      · exact Or.inl h'
      · exact Or.inr (List.mem_cons_of_mem _ h')

theorem mem_mapSet {m : StagedFiles} {k : String} {v : FileConfig}
    {p : String × FileConfig} (hp : p ∈ mapSet m k v) : p = (k, v) ∨ p ∈ m := by
  unfold mapSet at hp
  split at hp
  · exact mem_replaceKey hp
  · rcases List.mem_append.1 hp with h | h
    · exact Or.inr h
    · simp only [List.mem_singleton] at h
      exact Or.inl h

theorem lookupStaged_mem {m : StagedFiles} {k : String} {v : FileConfig}
    (h : lookupStaged m k = some v) : (k, v) ∈ m := by
  induction m with
  | nil => simp [lookupStaged] at h
  | cons q rest ih =>
    simp only [lookupStaged] at h
    split at h
    · rename_i hq
      injection h with h'
      have hqv : (k, v) = q := by
        rw [← hq, ← h']
      rw [hqv]
      exact List.mem_cons_self _ _
    · exact List.mem_cons_of_mem _ (ih h)

theorem lookupStaged_replaceKey (m : StagedFiles) (k : String) (v : FileConfig)
    (hk : hasKey m k = true) : lookupStaged (replaceKey m k v) k = some v := by
  induction m with
  | nil => simp [hasKey] at hk
  | cons q rest ih =>
    by_cases hq : q.1 = k
    · simp [replaceKey, hq, lookupStaged]
    · have hrest : hasKey rest k = true := by
        simpa [hasKey, List.any_cons, hq] using hk
      simp [replaceKey, hq, lookupStaged, ih hrest]

theorem lookupStaged_append_single (m : StagedFiles) (k : String) (v : FileConfig)
    (hk : hasKey m k = false) : lookupStaged (m ++ [(k, v)]) k = some v := by
  induction m with
  | nil => simp [lookupStaged]
  | cons q rest ih =>
    have hq : ¬ q.1 = k := by
      intro h
      simp [hasKey, List.any_cons, h] at hk
    have hrest : hasKey rest k = false := by
      simpa [hasKey, List.any_cons, hq] using hk
    simpa [lookupStaged, hq] using ih hrest

theorem lookupStaged_mapSet (m : StagedFiles) (k : String) (v : FileConfig) :
    lookupStaged (mapSet m k v) k = some v := by
  unfold mapSet
  by_cases hk : hasKey m k
  · simpa [hk] using lookupStaged_replaceKey m k v hk
  · have hk' : hasKey m k = false := by
      simpa using hk
    simpa [hk'] using lookupStaged_append_single m k v hk'

theorem addFiles_single_lookup (m : StagedFiles) (f : FileInfo) :
    lookupStaged (addFiles m [f]) f.name = some ⟨f, defaultType, defaultUnit f.name⟩ := by
  unfold addFiles
  simpa using lookupStaged_mapSet m f.name ⟨f, defaultType, defaultUnit f.name⟩

theorem goodCfg_default (f : FileInfo) :
    goodCfg ⟨f, defaultType, defaultUnit f.name⟩ := by
  constructor
  · simp [defaultType, typeOptions]
  · unfold defaultUnit
    split <;> simp [unitOptions]

theorem goodAll_mapSet {m : StagedFiles} {k : String} {v : FileConfig}
    (hm : ∀ p ∈ m, goodCfg p.2) (hv : goodCfg v) :
    ∀ p ∈ mapSet m k v, goodCfg p.2 := by
  intro p hp
  rcases mem_mapSet hp with h | h
  · rw [h]
    exact hv
  · exact hm p h

theorem goodAll_addFiles {m : StagedFiles} (hm : ∀ p ∈ m, goodCfg p.2)
    (fs : List FileInfo) : ∀ p ∈ addFiles m fs, goodCfg p.2 := by
  unfold addFiles
  induction fs generalizing m with
  | nil => simpa using hm
  | cons f rest ih =>
    simp only [List.foldl_cons]
    exact ih (goodAll_mapSet hm (goodCfg_default f))

theorem goodCfg_applyField {cfg : FileConfig} (h : goodCfg cfg) {key val : String}
    (hval : (key = "type" → val ∈ typeOptions) ∧ (key = "unit" → val ∈ unitOptions)) :
    goodCfg (applyField cfg key val) := by
  unfold applyField
  by_cases h1 : key = "type"
  · simp only [if_pos h1]
    exact ⟨hval.1 h1, h.2⟩
  · simp only [if_neg h1]
    by_cases h2 : key = "unit"
    · simp only [if_pos h2]
      exact ⟨h.1, hval.2 h2⟩
    · simp only [if_neg h2]
      exact h

theorem goodAll_updateConfig {m : StagedFiles} (hm : ∀ p ∈ m, goodCfg p.2)
    (filename key val : String)
    (hval : (key = "type" → val ∈ typeOptions) ∧ (key = "unit" → val ∈ unitOptions)) :
    ∀ p ∈ updateConfig m filename key val, goodCfg p.2 := by
  unfold updateConfig
  cases hl : lookupStaged m filename with
  | none => simpa using hm
  | some cfg =>
    have hcfg : goodCfg cfg := hm _ (lookupStaged_mem hl)
    exact goodAll_mapSet hm (goodCfg_applyField hcfg hval)

theorem goodAll_removeFile {m : StagedFiles} (hm : ∀ p ∈ m, goodCfg p.2)
    (filename : String) : ∀ p ∈ removeFile m filename, goodCfg p.2 :=
  fun p hp => hm p (List.mem_of_mem_filter hp)

theorem goodAll_applyEvent {m : StagedFiles} (hm : ∀ p ∈ m, goodCfg p.2)
    {e : UIEvent} (he : fromSelectUI e) : ∀ p ∈ applyEvent m e, goodCfg p.2 := by
  cases e with
  | add fs => exact goodAll_addFiles hm fs
  | setType f v =>
    exact goodAll_updateConfig hm f "type" v
      ⟨fun _ => he, fun h => absurd h (by decide)⟩
  | setUnit f v =>
    exact goodAll_updateConfig hm f "unit" v
      ⟨fun h => absurd h (by decide), fun _ => he⟩
  | remove f => exact goodAll_removeFile hm f

theorem goodAll_foldl : ∀ (evs : List UIEvent), (∀ e ∈ evs, fromSelectUI e) →
    ∀ (m : StagedFiles), (∀ p ∈ m, goodCfg p.2) →
    ∀ p ∈ evs.foldl applyEvent m, goodCfg p.2 := by
  intro evs
  induction evs with
  | nil =>
    intro _ m hm
    simpa using hm
  | cons e rest ih =>
    intro h m hm
    simp only [List.foldl_cons]
    exact ih (fun e' he' => h e' (List.mem_cons_of_mem _ he')) _
      (goodAll_applyEvent hm (h e (List.mem_cons_self _ _)))

theorem goodAll_runUI (evs : List UIEvent) (h : ∀ e ∈ evs, fromSelectUI e) :
    ∀ p ∈ runUI evs, goodCfg p.2 :=
  goodAll_foldl evs h [] (by simp)

/-! ### Claim theorems -/

/-- Claim C8: for every URL, `fetchJSON` returns the parsed JSON body if
and only if the HTTP response is ok; for every non-ok response it throws an
`Error` carrying the response `statusText` and returns no value. -/
theorem fetchJSON_ok_iff {α : Type} (r : Response α) :
    (fetchJSON r = .ok r.jsonBody ↔ r.ok = true) ∧
    (r.ok = false → fetchJSON r = .error r.statusText) ∧
    (∀ v, fetchJSON r = .ok v → v = r.jsonBody) := by
  unfold fetchJSON
  cases hr : r.ok <;> simp [hr]

/-- Claim C8 witness: a concrete ok response yields its body, and a
concrete failed response yields an error with its status text. -/
theorem fetchJSON_ok_iff_witness :
    fetchJSON ⟨true, "OK", (7 : Nat)⟩ = .ok 7 ∧
    fetchJSON ⟨false, "Not Found", (7 : Nat)⟩ = .error "Not Found" :=
  ⟨(fetchJSON_ok_iff ⟨true, "OK", (7 : Nat)⟩).1.mpr rfl,
   (fetchJSON_ok_iff ⟨false, "Not Found", (7 : Nat)⟩).2.1 rfl⟩

/-- Claim C3: for every Interaction Graph result with data, edges whose
weight exceeds the 10 000 large-edge threshold are only counted for UI
emphasis; the displayed edge count always equals the full length of the
returned edge list. -/
theorem interaction_edges_not_filtered (d : InteractionData) (ns : List String)
    (ls : List Link) (hn : d.nodes = some ns) (hne : ns ≠ []) (hl : d.links = some ls) :
    renderInteraction (some d) =
      .ok (.summary ns.length ls.length
        ((ls.filter (fun l => bigEdgeThreshold < l.value)).length)) ∧
    (∀ nc ec bc, renderInteraction (some d) = .ok (.summary nc ec bc) → ec = ls.length) := by
  obtain ⟨dn, dl⟩ := d
  simp only at hn hl
  subst hn
  subst hl
  have hlen : ¬ ns.length = 0 := by
    simpa using hne
  have h1 : renderInteraction (some ⟨some ns, some ls⟩) =
      .ok (.summary ns.length ls.length
        ((ls.filter (fun l => bigEdgeThreshold < l.value)).length)) := by
    simp [renderInteraction, hlen]
  refine ⟨h1, ?_⟩
  intro nc ec bc h
  rw [h1] at h
  injection h with h2
  injection h2 with _ h3 _
  exact h3.symm

/-- Claim C3 witness: a two-node, two-edge graph with one edge above the
threshold displays edge count 2. -/
theorem interaction_edges_not_filtered_witness :
    renderInteraction (some ⟨some ["A", "B"], some [⟨20000⟩, ⟨5⟩]⟩) =
      .ok (.summary (["A", "B"] : List String).length
        ([⟨20000⟩, ⟨5⟩] : List Link).length
        ((([⟨20000⟩, ⟨5⟩] : List Link).filter (fun l => bigEdgeThreshold < l.value)).length)) :=
  (interaction_edges_not_filtered ⟨some ["A", "B"], some [⟨20000⟩, ⟨5⟩]⟩
    ["A", "B"] [⟨20000⟩, ⟨5⟩] rfl (by simp) rfl).1

/-- Claim C5: for every Stats result with data, the displayed counterparty
ranking is the first 50 rows of the returned list, in order, so at most 50
rows are displayed regardless of input size. -/
theorem stats_rows_capped (p : Payload StatsRow) (l : List StatsRow)
    (hd : p.data = some l) (hne : l ≠ []) :
    renderStats (some p) =
      .table ((l.take 50).map (fun x => (x.counterparty_name, |x.net_amount.getD 0|))) ∧
    ((l.take 50).map (fun x => (x.counterparty_name, |x.net_amount.getD 0|))).length ≤ 50 := by
  obtain ⟨pd⟩ := p
  simp only at hd
  subst hd
  have hlen : ¬ l.length = 0 := by
    simpa using hne
  constructor
  · simp [renderStats, hlen]
  · rw [List.length_map, List.length_take]
    exact Nat.min_le_left _ _

/-- Claim C5 witness: a one-row stats payload renders as its one-row
table. -/
theorem stats_rows_capped_witness :
    renderStats (some ⟨some [⟨"张三", some 5⟩]⟩) =
      .table ((([⟨"张三", some 5⟩] : List StatsRow).take 50).map
        (fun x => (x.counterparty_name, |x.net_amount.getD 0|))) :=
  (stats_rows_capped ⟨some [⟨"张三", some 5⟩]⟩ [⟨"张三", some 5⟩] rfl (by simp)).1

/-- Claim C10: for every Stolen-Goods Tracing response with data, the
rendered table contains exactly the first 50 tracing rows of the returned
list; rows at index 50 and beyond are silently dropped from display. -/
theorem stolen_rows_capped (p : Payload StolenRow) (l : List StolenRow)
    (hd : p.data = some l) (hne : l ≠ []) :
    renderStolen (some p) =
      .table ((l.take 50).map (fun x => (x.source, x.target, x.amount.getD 0))) ∧
    ((l.take 50).map (fun x => (x.source, x.target, x.amount.getD 0))).length ≤ 50 ∧
    (50 < l.length →
      ((l.take 50).map (fun x => (x.source, x.target, x.amount.getD 0))).length = 50) := by
  obtain ⟨pd⟩ := p
  simp only at hd
  subst hd
  have hlen : ¬ l.length = 0 := by
    simpa using hne
  refine ⟨?_, ?_, ?_⟩
  · simp [renderStolen, hlen]
  · rw [List.length_map, List.length_take]
    exact Nat.min_le_left _ _
  · intro hgt
    rw [List.length_map, List.length_take]
    omega

/-- Claim C10 witness: a one-row tracing payload renders as its one-row
table. -/
theorem stolen_rows_capped_witness :
    renderStolen (some ⟨some [⟨"甲", "乙", some 12000⟩]⟩) =
      .table ((([⟨"甲", "乙", some 12000⟩] : List StolenRow).take 50).map
        (fun x => (x.source, x.target, x.amount.getD 0))) :=
  (stolen_rows_capped ⟨some [⟨"甲", "乙", some 12000⟩]⟩ [⟨"甲", "乙", some 12000⟩]
    rfl (by simp)).1

/-- Claim C7: every zero-row analytics response (null payload, missing data
field, or empty data list) renders as the empty-state placeholder in every
render function, never as a thrown error or failure report. -/
theorem zero_rows_render_empty :
    (∀ d : Option (Payload TrendRow), zeroRowPayload d → renderTrend d = .emptyState) ∧
    (∀ d : Option (Payload HiddenRow), zeroRowPayload d → renderHidden d = .emptyState) ∧
    (∀ d : Option (Payload StolenRow), zeroRowPayload d → renderStolen d = .emptyState) ∧
    (∀ d : Option (Payload StatsRow), zeroRowPayload d → renderStats d = .emptyState) ∧
    (∀ d : Option (Payload KeywordRow), zeroRowPayload d → renderKeywords d = .emptyState) ∧
    (∀ d : Option InteractionData, zeroRowInteraction d → renderInteraction d = .ok .emptyState) := by
  refine ⟨?_, ?_, ?_, ?_, ?_, ?_⟩
  · rintro (_ | ⟨_ | l⟩) h
    · rfl
    · rfl
    · rcases h with h | h
      · exact absurd h (Option.some_ne_none l)
      · obtain rfl : l = [] := Option.some.inj h
        rfl
  · rintro (_ | ⟨_ | l⟩) h
    · rfl
    · rfl
    · rcases h with h | h
      · exact absurd h (Option.some_ne_none l)
      · obtain rfl : l = [] := Option.some.inj h
        rfl
  · rintro (_ | ⟨_ | l⟩) h
    · rfl
    · rfl
    · rcases h with h | h
      · exact absurd h (Option.some_ne_none l)
      · obtain rfl : l = [] := Option.some.inj h
        rfl
  · rintro (_ | ⟨_ | l⟩) h
    · rfl
    · rfl
    · rcases h with h | h
      · exact absurd h (Option.some_ne_none l)
      · obtain rfl : l = [] := Option.some.inj h
        rfl
  · rintro (_ | ⟨_ | l⟩) h
    · rfl
    · rfl
    · rcases h with h | h
      · exact absurd h (Option.some_ne_none l)
      · obtain rfl : l = [] := Option.some.inj h
        rfl
  · rintro (_ | ⟨dn, dl⟩) h
    · rfl
    · rcases h with rfl | rfl
      · rfl
      · rfl

/-- Claim C7 witness: concrete zero-row responses render as empty states
for the trend, hidden and interaction panels. -/
theorem zero_rows_render_empty_witness :
    renderTrend (none : Option (Payload TrendRow)) = .emptyState ∧
    renderHidden (some ⟨some []⟩) = .emptyState ∧
    renderInteraction (some ⟨some [], some []⟩) = .ok .emptyState :=
  ⟨zero_rows_render_empty.1 none trivial,
   zero_rows_render_empty.2.1 (some ⟨some []⟩) (Or.inr rfl),
   zero_rows_render_empty.2.2.2.2.2 (some ⟨some [], some []⟩) (Or.inr rfl)⟩

/-- Claim C4: every hidden-accomplice request whose time-window input is
empty is issued with exactly 30 minutes; a supplied value is parsed as a
base-10 integer and used instead — at both call sites (the dedicated
reload handler and `loadAllData`). -/
theorem hidden_minutes_default_spec (caseId v : String) :
    (v = "" → parsedMinutes v = some 30) ∧
    (v ≠ "" → parsedMinutes v = jsParseInt10 v) ∧
    hiddenReloadRequests caseId v = [.hidden caseId (parsedMinutes v)] ∧
    (caseId ≠ "" → loadAllDataMulti caseId v =
      [.interaction caseId, .stolen_known caseId, .hidden caseId (parsedMinutes v)]) := by
  refine ⟨?_, ?_, rfl, ?_⟩
  · intro hv
    subst hv
    rfl
  · intro hv
    unfold parsedMinutes
    rw [if_neg hv]
  · intro hc
    unfold loadAllDataMulti
    rw [if_neg hc]

/-- Claim C4 witness: an empty minutes input yields exactly 30, and the
reload handler's request carries it. -/
theorem hidden_minutes_default_spec_witness :
    parsedMinutes "" = some 30 ∧
    hiddenReloadRequests "CASE-001" "" = [.hidden "CASE-001" (parsedMinutes "")] :=
  ⟨(hidden_minutes_default_spec "CASE-001" "").1 rfl,
   (hidden_minutes_default_spec "CASE-001" "").2.2.1⟩

/-- Claim C6 counterexample: the hidden-accomplice reload handler has no
case-id guard, so with an empty case id it still issues an analytics
request, and that request's `case_id` parameter is empty — contradicting
"no analytics request is issued at all" and "every issued analytics
request carries a non-empty case_id parameter". -/
theorem analytics_empty_caseid_request :
    hiddenReloadRequests "" "" = [.hidden "" (some 30)] ∧
    MultiRequest.case_id (.hidden "" (some 30)) = "" ∧
    (hiddenReloadRequests "" "").length ≠ 0 :=
  ⟨rfl, rfl, by decide⟩

/-- Claim C6 (amended): for every analytics load through `loadAllData`
(multi or single dashboard) with an empty case id, no request is issued;
with a non-empty case id, every request `loadAllData` issues carries that
non-empty case id. The per-panel refresh handlers lack this guard. -/
theorem loadAllData_caseid_guard (caseId v person filterMode : String) :
    (caseId = "" →
      loadAllDataMulti caseId v = [] ∧ loadAllDataSingle caseId person filterMode = []) ∧
    (caseId ≠ "" →
      (∀ r ∈ loadAllDataMulti caseId v, MultiRequest.case_id r = caseId) ∧
      (∀ r ∈ loadAllDataSingle caseId person filterMode, SingleRequest.case_id r = caseId)) := by
  constructor
  · intro hc
    subst hc
    exact ⟨rfl, rfl⟩
  · intro hc
    unfold loadAllDataMulti loadAllDataSingle
    rw [if_neg hc, if_neg hc]
    constructor
    · intro r hr
      simp only [List.mem_cons, List.not_mem_nil, or_false] at hr
      rcases hr with rfl | rfl | rfl <;> rfl
    · intro r hr
      simp only [List.mem_cons, List.not_mem_nil, or_false] at hr
      rcases hr with rfl | rfl | rfl <;> rfl

/-- Claim C6 witness: with an empty case id both `loadAllData` functions
issue no request. -/
theorem loadAllData_caseid_guard_witness :
    loadAllDataMulti "" "30" = [] ∧ loadAllDataSingle "" "" "net" = [] :=
  (loadAllData_caseid_guard "" "30" "" "net").1 rfl

/-- Claim C9: `uploadAll` performs the upload POST exactly when the trimmed
case name is non-empty, the trimmed case id is non-empty, and at least one
file is staged; every failing precondition alerts and sends nothing, and
the staged-file map is never mutated. -/
theorem uploadAll_preconditions (cn ci : String) (m : StagedFiles) :
    ((uploadAll cn ci m).1.sendsRequest = true ↔
      (jsTrim cn ≠ "" ∧ jsTrim ci ≠ "" ∧ m ≠ [])) ∧
    (uploadAll cn ci m).2 = m ∧
    (jsTrim cn = "" ∨ jsTrim ci = "" →
      (uploadAll cn ci m).1 = .alerted "请填写案件名称和编号") ∧
    ((jsTrim cn ≠ "" ∧ jsTrim ci ≠ "") → m = [] →
      (uploadAll cn ci m).1 = .alerted "请至少添加一个文件") ∧
    ((jsTrim cn ≠ "" ∧ jsTrim ci ≠ "" ∧ m ≠ []) →
      (uploadAll cn ci m).1 =
        .requestSent (jsTrim cn) (jsTrim ci) (m.map (fun p => p.2.file)) (fileConfigs m)) := by
  by_cases h1 : jsTrim cn = "" ∨ jsTrim ci = ""
  · have he : uploadAll cn ci m = (.alerted "请填写案件名称和编号", m) := by
      simp [uploadAll, h1]
    rw [he]
    refine ⟨?_, rfl, fun _ => rfl, ?_, ?_⟩
    · simp only [UploadAction.sendsRequest, Bool.false_eq_true, false_iff]
      rintro ⟨hcn, hci, _⟩
      rcases h1 with h | h
      exacts [hcn h, hci h]
    · rintro ⟨hcn, hci⟩ _
      rcases h1 with h | h
      exacts [absurd h hcn, absurd h hci]
    · rintro ⟨hcn, hci, _⟩
      rcases h1 with h | h
      exacts [absurd h hcn, absurd h hci]
  · by_cases h2 : m.length = 0
    · have hm : m = [] := List.length_eq_zero.1 h2
      have he : uploadAll cn ci m = (.alerted "请至少添加一个文件", m) := by
        simp [uploadAll, h1, h2]
      rw [he]
      refine ⟨?_, rfl, ?_, fun _ _ => rfl, ?_⟩
      · simp only [UploadAction.sendsRequest, Bool.false_eq_true, false_iff]
        rintro ⟨_, _, hne⟩
        exact hne hm
      · intro h
        exact absurd h h1
      · rintro ⟨_, _, hne⟩
        exact absurd hm hne
    · have hm : m ≠ [] := by
        simpa [List.length_eq_zero] using h2
      have he : uploadAll cn ci m =
          (.requestSent (jsTrim cn) (jsTrim ci) (m.map (fun p => p.2.file)) (fileConfigs m), m) := by
        simp [uploadAll, h1, h2]
      rw [he]
      refine ⟨?_, rfl, ?_, ?_, fun _ => rfl⟩
      · simp only [UploadAction.sendsRequest, true_iff]
        push_neg at h1
        exact ⟨h1.1, h1.2, hm⟩
      · intro h
        exact absurd h h1
      · intro _ h
        exact absurd h hm

/-- Claim C9 witness: with an empty case id nothing is sent, the alert is
shown, and the staged map is untouched. -/
theorem uploadAll_preconditions_witness :
    (uploadAll "网络盗窃案" "" []).1 = .alerted "请填写案件名称和编号" ∧
    (uploadAll "网络盗窃案" "" []).2 = [] :=
  ⟨(uploadAll_preconditions "网络盗窃案" "" []).2.2.1 (Or.inr rfl),
   (uploadAll_preconditions "网络盗窃案" "" []).2.1⟩

/-- Claim C1 counterexample: the ".txt" default rule is applied to the
lowercased file name, so "A.TXT" — whose name does not end in ".txt" —
still defaults to fen rather than the claimed yuan. -/
theorem upload_unit_default_counterexample :
    jsEndsWith "A.TXT" ".txt" = false ∧ defaultUnit "A.TXT" = "fen" :=
  ⟨by decide, by decide⟩

/-- Claim C1 (amended): every staged file's declared amount unit comes from
its own per-file configuration and is one of exactly the three select
values (yuan ×1, jiao ×0.1, fen ×0.01); the upload request's
`file_configs` carries each file's unit; the default is yuan except that a
file whose lowercased name ends in ".txt" (case-insensitive match)
defaults to fen. -/
theorem upload_unit_spec (evs : List UIEvent) (h : ∀ e ∈ evs, fromSelectUI e) :
    (∀ p ∈ runUI evs,
      p.2.unit ∈ unitOptions ∧
      (unitFactor p.2.unit = some 1 ∨ unitFactor p.2.unit = some (1 / 10) ∨
        unitFactor p.2.unit = some (1 / 100)) ∧
      (p.1, p.2.type, p.2.unit) ∈ fileConfigs (runUI evs)) ∧
    (∀ (m : StagedFiles) (f : FileInfo),
      lookupStaged (addFiles m [f]) f.name = some ⟨f, defaultType, defaultUnit f.name⟩) ∧
    (∀ name, jsEndsWith (jsToLower name) ".txt" = true → defaultUnit name = "fen") ∧
    (∀ name, jsEndsWith (jsToLower name) ".txt" = false → defaultUnit name = "yuan") ∧
    (∀ cn ci (m : StagedFiles), jsTrim cn ≠ "" → jsTrim ci ≠ "" → m ≠ [] →
      (uploadAll cn ci m).1 =
        .requestSent (jsTrim cn) (jsTrim ci) (m.map (fun p => p.2.file)) (fileConfigs m)) := by
  refine ⟨?_, ?_, ?_, ?_, ?_⟩
  · intro p hp
    have hg := goodAll_runUI evs h p hp
    refine ⟨hg.2, ?_, List.mem_map_of_mem _ hp⟩
    have hu := hg.2
    simp only [unitOptions, List.mem_cons, List.not_mem_nil, or_false] at hu
    rcases hu with hu | hu | hu <;> rw [hu] <;> simp [unitFactor]
  · intro m f
    exact addFiles_single_lookup m f
  · intro name hend
    simp [defaultUnit, hend]
  · intro name hend
    simp [defaultUnit, hend]
  · intro cn ci m hcn hci hm
    have h1 : ¬ (jsTrim cn = "" ∨ jsTrim ci = "") := by
      rintro (h' | h')
      exacts [hcn h', hci h']
    have h2 : ¬ m.length = 0 := by
      simpa [List.length_eq_zero] using hm
    simp [uploadAll, h1, h2]

/-- Claim C1 witness: ".TXT" and ".txt" names default to fen, other names
to yuan, and a freshly added file is staged with those defaults. -/
theorem upload_unit_spec_witness :
    defaultUnit "A.TXT" = "fen" ∧ defaultUnit "流水.xlsx" = "yuan" ∧
    lookupStaged (addFiles [] [⟨"b.txt", 12⟩]) "b.txt" =
      some ⟨⟨"b.txt", 12⟩, defaultType, defaultUnit "b.txt"⟩ :=
  ⟨(upload_unit_spec [] (by intro e he; simp at he)).2.2.1 "A.TXT" (by decide),
   (upload_unit_spec [] (by intro e he; simp at he)).2.2.2.1 "流水.xlsx" (by decide),
   (upload_unit_spec [] (by intro e he; simp at he)).2.1 [] ⟨"b.txt", 12⟩⟩

/-- Claim C2: the upload UI can only declare one of the three canonical
person-roles (default screening-subject, 排查人员), and — modelled from the
spec, the ingestion backend not being among the sources — any other
declared role fails the batch with `InvalidIdentity` and commits zero
rows. -/
theorem upload_identity_spec (evs : List UIEvent) (h : ∀ e ∈ evs, fromSelectUI e) :
    (∀ p ∈ runUI evs, p.2.type ∈ typeOptions) ∧
    defaultType = "排查人员" ∧
    (∀ r, r ∈ typeOptions ↔ r ∈ canonicalRoles) ∧
    typeOptions.length = 3 ∧
    (∀ (m : StagedFiles) (f : FileInfo),
      (lookupStaged (addFiles m [f]) f.name).map FileConfig.type = some defaultType) ∧
    (∀ role n, role ∉ canonicalRoles →
      ingestBatch role n = .invalidIdentity ∧ committedRows (ingestBatch role n) = 0) ∧
    (∀ role n, role ∈ canonicalRoles → ingestBatch role n = .committed n) := by
  refine ⟨fun p hp => (goodAll_runUI evs h p hp).1, rfl, ?_, rfl, ?_, ?_, ?_⟩
  · intro r
    constructor <;> intro hr <;>
      simp only [typeOptions, canonicalRoles, List.mem_cons, List.not_mem_nil, or_false] at hr ⊢ <;>
      tauto
  · intro m f
    rw [addFiles_single_lookup]
    rfl
  · intro role n hr
    unfold ingestBatch
    rw [if_neg hr]
    exact ⟨rfl, rfl⟩
  · intro role n hr
    unfold ingestBatch
    rw [if_pos hr]

/-- Claim C2 witness: a non-canonical role is rejected with zero rows
committed, and a canonical role commits its rows. -/
theorem upload_identity_spec_witness :
    ingestBatch "证人" 7 = .invalidIdentity ∧ committedRows (ingestBatch "证人" 7) = 0 :=
  (upload_identity_spec [] (by intro e he; simp at he)).2.2.2.2.2.1 "证人" 7 (by decide)

end FundDash
